import Mathlib

/-
Shallow embedding of the c_data_structures repository: Status/Result
utilities (src/utils), the plain arrays (src/int/Array.h,
src/generic/Array.h) and the strict arrays (src/int/StrictArray.h,
src/generic/StrictArray.h).

Modelling conventions:
  * C pointers that may be NULL are modelled as `Option`; a NULL handle is
    `none`.
  * Heap buffers are lists of cells; a cell is `Option v` where `none`
    stands for an uninitialized (indeterminate) cell left by `malloc`.
    Int-array buffers hold `Option Int` cells (one C int each); the
    type-erased generic buffers hold `Option Nat` cells (one byte each),
    and all offsets are byte offsets exactly as the source computes them.
  * `malloc` may fail; each allocating function takes an `alloc : Bool`
    input telling whether the single allocation it performs succeeds.
  * A C function that dereferences a NULL pointer is undefined behaviour;
    its result is `CRet.fault`.  A non-void C function that reaches the
    closing brace without a `return` yields an indeterminate value,
    modelled as `CVal.undef`.
  * Out-parameters (`void **to`) are modelled by a `Bool` saying whether
    the slot pointer is non-NULL, and the function result carries
    `Option (Option α)`: `none` means the slot was left untouched,
    `some v` means the slot was assigned `v` (where `v = none` is an
    assignment of NULL).
-/

/-- status_t from src/utils/status.h: zero (NO_ERROR) means success, every
other constructor is a failure kind. -/
inductive status_t where
  | NO_ERROR
  | SEGFAULT
  | NO_SPACE
  | INVALID_SIZE
  | HEAP_FAILURE
  | INVALID_INSTANCE
  | INVALID_INDEX
deriving DecidableEq

/-- The anonymous union inside struct Result: it holds either the borrowed
diagnostic string or the owning data pointer. -/
inductive Payload (α : Type) where
  | error_msg : String → Payload α
  | data : α → Payload α
deriving DecidableEq

/-- struct Result from src/utils/Result.h: a status code plus the union.
The payload type is a parameter because the C side stores a `void *`. -/
structure Result (α : Type) where
  ok : status_t
  pay : Payload α
deriving DecidableEq

/-- Result of a C call that may hit undefined behaviour by dereferencing a
NULL pointer: `fault` marks that dereference, `ret` a normal return. -/
inductive CRet (α : Type) where
  | fault : CRet α
  | ret : α → CRet α
deriving DecidableEq

/-- Value of a non-void C function: `undef` models control reaching the end
of the function without a return statement (indeterminate value). -/
inductive CVal (α : Type) where
  | undef : CVal α
  | val : α → CVal α
deriving DecidableEq

/-- memcpy(dst + off, src, n) on cell buffers: the first n cells of src
overwrite dst starting at offset off; the rest of dst is kept. -/
def memcpy {α : Type} (dst : List (Option α)) (off : Nat) (src : List (Option α))
    (n : Nat) : List (Option α) :=
  dst.take off ++ src.take n ++ dst.drop (off + n)

/-- Reading the error_msg arm of the union.  When the union last stored the
data pointer (which never happens in Results built by the producers with a
non-success status) the C read would reinterpret that pointer; that
unreachable reinterpretation is modelled as the empty string. -/
def readMsg {α : Type} : Payload α → String
  | .error_msg s => s
  | .data _ => ""

/-- Reading the data arm of the union.  When the union last stored the
message (never the case for producer-built success Results) the C read
would reinterpret the message pointer; modelled as `none`. -/
def readData {α : Type} : Payload α → Option α
  | .error_msg _ => none
  | .data d => some d

/-- get_data_p from src/utils/Result.h.  `f` is the Result pointer, `to`
says whether the out-slot pointer is non-NULL.  Returns the message (or
NULL) together with what, if anything, was stored into the slot. -/
def get_data_p {α : Type} (f : Option (Result α)) (toPtr : Bool) :
    Option String × Option (Option α) :=
  match f, toPtr with
  | none, _ => (some "ValueError: cannot access a null pointer.\n", none)
  | some _, false => (some "ValueError: cannot access a null pointer.\n", none)
  | some r, true =>
    if r.ok ≠ status_t.NO_ERROR then (some (readMsg r.pay), some none)
    else (none, some (readData r.pay))

/-- get_data from src/utils/Result.h (Result taken by value).  The source
returns NULL when the slot pointer is NULL, returns the message on a
failure status without touching the slot, and on success stores the data
into the slot but then falls off the end of the function without a return
statement — hence `CVal.undef` for the returned value on that path. -/
def get_data {α : Type} (f : Result α) (toPtr : Bool) :
    CVal (Option String) × Option (Option α) :=
  match toPtr with
  | false => (CVal.val none, none)
  | true =>
    if f.ok ≠ status_t.NO_ERROR then (CVal.val (some (readMsg f.pay)), none)
    else (CVal.undef, some (readData f.pay))

/-- Int-array payload: one cell per C int, `none` = uninitialized. -/
abbrev Buf := List (Option Int)

/-- struct Array_int from src/int/Array.h: capacity header plus the
flexible int payload (the single allocation is flattened into the list). -/
structure Array_int where
  capacity : Nat
  data : Buf
deriving DecidableEq

/-- new_Array_int from src/int/Array.h.  A NULL data pointer forces size to
zero; capacity < size is INVALID_SIZE; a failed malloc is HEAP_FAILURE;
otherwise the header is filled and size ints are copied over the
uninitialized payload of capacity cells. -/
def new_Array_int (data : Option Buf) (size capacity : Nat) (alloc : Bool) :
    Result Array_int :=
  let size := if data.isNone then 0 else size
  if capacity < size then
    { ok := status_t.INVALID_SIZE,
      pay := Payload.error_msg "SizeError: size is negative or capacity is less than size\n" }
  else if !alloc then
    { ok := status_t.HEAP_FAILURE,
      pay := Payload.error_msg "AllocationError: Not enough memory in the heap" }
  else
    { ok := status_t.NO_ERROR,
      pay := Payload.data
        { capacity := capacity,
          data := memcpy (List.replicate capacity none) 0 (data.getD []) size } }

/-- from_Array_int from src/int/Array.h: NULL source is SEGFAULT, otherwise
it delegates to new_Array_int with the full payload of the source and its
capacity as both size and capacity. -/
def from_Array_int (f : Option Array_int) (alloc : Bool) : Result Array_int :=
  match f with
  | none =>
    { ok := status_t.SEGFAULT,
      pay := Payload.error_msg "ValueError: cannot access a null pointer\n" }
  | some a => new_Array_int (some a.data) a.capacity a.capacity alloc

/-- get_item_Array_int from src/int/Array.h.  NULL handle or index outside
[0, capacity) returns NULL; otherwise a pointer to the cell, modelled as
`some` of the content of that cell. -/
def get_item_Array_int (f : Option Array_int) (index : Nat) :
    Option (Option Int) :=
  match f with
  | none => none
  | some a =>
    if index < 0 ∨ index ≥ a.capacity then none
    else some (a.data.getD index none)

/-- Byte buffer for the type-erased generic containers: one `Option Nat`
cell per byte, `none` = uninitialized byte. -/
abbrev BBuf := List (Option Nat)

namespace generic

/-- struct Array from src/generic/Array.h: capacity and type_size header
followed by the flexible char payload of capacity * type_size bytes. -/
structure Array where
  capacity : Nat
  type_size : Nat
  data : BBuf
deriving DecidableEq

end generic

/-- new_Array from src/generic/Array.h.  A NULL data pointer forces size to
zero; capacity < size is INVALID_SIZE, then type_size <= 0 is
INVALID_SIZE; a failed malloc is HEAP_FAILURE; otherwise the header is
filled and size * type_size bytes are copied over the uninitialized
capacity * type_size byte payload. -/
def new_Array (data : Option BBuf) (size capacity type_size : Nat)
    (alloc : Bool) : Result generic.Array :=
  let size := if data.isNone then 0 else size
  if capacity < size then
    { ok := status_t.INVALID_SIZE,
      pay := Payload.error_msg "SizeError: size is negative or capacity is less than size\n" }
  else if type_size ≤ 0 then
    { ok := status_t.INVALID_SIZE,
      pay := Payload.error_msg "SizeError: Type cannot have less than 1 byte\n" }
  else if !alloc then
    { ok := status_t.HEAP_FAILURE,
      pay := Payload.error_msg "AllocationError: Not enough memory in the heap" }
  else
    { ok := status_t.NO_ERROR,
      pay := Payload.data
        { capacity := capacity, type_size := type_size,
          data := memcpy (List.replicate (capacity * type_size) none) 0
            (data.getD []) (size * type_size) } }

/-- from_Array from src/generic/Array.h: NULL source is SEGFAULT, otherwise
it delegates to new_Array with the payload of the source, its capacity as both
size and capacity, and its type_size. -/
def from_Array (f : Option generic.Array) (alloc : Bool) :
    Result generic.Array :=
  match f with
  | none =>
    { ok := status_t.SEGFAULT,
      pay := Payload.error_msg "ValueError: cannot access a null pointer\n" }
  | some a => new_Array (some a.data) a.capacity a.capacity a.type_size alloc

/-- get_item_Array from src/generic/Array.h.  NULL handle or index outside
[0, capacity) returns NULL; otherwise the pointer from->data +
index * from->type_size, modelled as `some` of that byte offset. -/
def get_item_Array (f : Option generic.Array) (index : Nat) : Option Nat :=
  match f with
  | none => none
  | some a =>
    if index < 0 ∨ index ≥ a.capacity then none
    else some (index * a.type_size)

/-- struct StrictArray_int from src/int/StrictArray.h: size and capacity
header plus the flexible int payload. -/
structure StrictArray_int where
  size : Nat
  capacity : Nat
  data : Buf
deriving DecidableEq

/-- new_StrictArray_int from src/int/StrictArray.h.  A NULL data pointer
forces size to zero; size < 0 (vacuous for size_t) or cap < size is
INVALID_SIZE; a failed malloc is HEAP_FAILURE; otherwise both header
fields are set and size ints are copied over the cap uninitialized cells.
(The debug printf loop in the source only writes to stdout.) -/
def new_StrictArray_int (data : Option Buf) (size cap : Nat) (alloc : Bool) :
    Result StrictArray_int :=
  let size := if data.isNone then 0 else size
  if size < 0 ∨ cap < size then
    { ok := status_t.INVALID_SIZE,
      pay := Payload.error_msg "SizeError: size is negative or capacity is less than size\n" }
  else if !alloc then
    { ok := status_t.HEAP_FAILURE,
      pay := Payload.error_msg "AllocationError: Not enough memory in the heap" }
  else
    { ok := status_t.NO_ERROR,
      pay := Payload.data
        { size := size, capacity := cap,
          data := memcpy (List.replicate cap none) 0 (data.getD []) size } }

/-- from_StrictArray_int from src/int/StrictArray.h.  NULL source is
SEGFAULT; a failed malloc is HEAP_FAILURE; otherwise size and capacity are
copied and memcpy copies from->capacity * sizeof(int) bytes — the FULL
capacity worth of cells, not just the logical size worth. -/
def from_StrictArray_int (f : Option StrictArray_int) (alloc : Bool) :
    Result StrictArray_int :=
  match f with
  | none =>
    { ok := status_t.SEGFAULT,
      pay := Payload.error_msg "ValueError: cannot access a null pointer\n" }
  | some a =>
    if !alloc then
      { ok := status_t.HEAP_FAILURE,
        pay := Payload.error_msg "AllocationError: Not enough memory in the heap\n" }
    else
      { ok := status_t.NO_ERROR,
        pay := Payload.data
          { size := a.size, capacity := a.capacity,
            data := memcpy (List.replicate a.capacity none) 0 a.data a.capacity } }

/-- push_back_StrictArray_int from src/int/StrictArray.h.  NULL handle is
SEGFAULT (checked before any field read); size == capacity is NO_SPACE
with the array untouched; otherwise data[size] is assigned, size is
incremented and NO_ERROR returned.  The pair carries the status and the
state the handle refers to afterwards. -/
def push_back_StrictArray_int (arr : Option StrictArray_int) (data : Int) :
    status_t × Option StrictArray_int :=
  match arr with
  | none => (status_t.SEGFAULT, none)
  | some a =>
    if a.size = a.capacity then (status_t.NO_SPACE, some a)
    else
      (status_t.NO_ERROR,
        some { a with data := a.data.set a.size (some data),
                      size := a.size + 1 })

/-- pop_back_StrictArray_int from src/int/StrictArray.h: no-op on a NULL
handle; decrements size when it is non-zero. -/
def pop_back_StrictArray_int (arr : Option StrictArray_int) :
    Option StrictArray_int :=
  match arr with
  | none => none
  | some a => if a.size ≠ 0 then some { a with size := a.size - 1 } else some a

/-- clear_StrictArray_int from src/int/StrictArray.h: no-op on a NULL
handle; resets size to 0 without touching the payload. -/
def clear_StrictArray_int (arr : Option StrictArray_int) :
    Option StrictArray_int :=
  match arr with
  | none => none
  | some a => some { a with size := 0 }

/-- get_item_StrictArray_int from src/int/StrictArray.h.  The source has NO
null-handle check: arr->size is read unconditionally, so a NULL handle is
a fault.  Otherwise index < 0 || index >= size returns NULL, and an index
in [0, size) yields a pointer to the cell. -/
def get_item_StrictArray_int (arr : Option StrictArray_int) (index : Nat) :
    CRet (Option (Option Int)) :=
  match arr with
  | none => CRet.fault
  | some a =>
    if index < 0 ∨ index ≥ a.size then CRet.ret none
    else CRet.ret (some (a.data.getD index none))

/-- struct StrictArray from src/generic/StrictArray.h: size, capacity and
type_size header plus the flexible char payload. -/
structure StrictArray where
  size : Nat
  capacity : Nat
  type_size : Nat
  data : BBuf
deriving DecidableEq

/-- new_StrictArray from src/generic/StrictArray.h.  A NULL data pointer
forces size to zero; size < 0 (vacuous) or cap < size is INVALID_SIZE,
then type_size <= 0 is INVALID_SIZE; a failed malloc is HEAP_FAILURE;
otherwise the three header fields are set and size * type_size bytes are
copied over the type_size * cap uninitialized bytes. -/
def new_StrictArray (data : Option BBuf) (type_size size cap : Nat)
    (alloc : Bool) : Result StrictArray :=
  let size := if data.isNone then 0 else size
  if size < 0 ∨ cap < size then
    { ok := status_t.INVALID_SIZE,
      pay := Payload.error_msg "SizeError: Size is negative or capacity is less than size\n" }
  else if type_size ≤ 0 then
    { ok := status_t.INVALID_SIZE,
      pay := Payload.error_msg "SizeError: Type cannot have less than 1 byte\n" }
  else if !alloc then
    { ok := status_t.HEAP_FAILURE,
      pay := Payload.error_msg "AllocationError: Not enough memory in the heap" }
  else
    { ok := status_t.NO_ERROR,
      pay := Payload.data
        { size := size, capacity := cap, type_size := type_size,
          data := memcpy (List.replicate (type_size * cap) none) 0
            (data.getD []) (size * type_size) } }

/-- from_StrictArray from src/generic/StrictArray.h.  NULL source is
SEGFAULT; a failed malloc is HEAP_FAILURE; otherwise capacity and size are
copied and memcpy copies from->size * from->type_size bytes (the logical
size worth of bytes).  The source NEVER assigns result->type_size, so the
type_size field of the clone keeps whatever indeterminate value malloc left,
modelled by the extra `junk` input. -/
def from_StrictArray (f : Option StrictArray) (alloc : Bool) (junk : Nat) :
    Result StrictArray :=
  match f with
  | none =>
    { ok := status_t.SEGFAULT,
      pay := Payload.error_msg "ValueError: cannot access a null pointer\n" }
  | some a =>
    if !alloc then
      { ok := status_t.HEAP_FAILURE,
        pay := Payload.error_msg "AllocationError: Not enough memory in the heap\n" }
    else
      { ok := status_t.NO_ERROR,
        pay := Payload.data
          { size := a.size, capacity := a.capacity, type_size := junk,
            data := memcpy (List.replicate (a.capacity * a.type_size) none) 0
              a.data (a.size * a.type_size) } }

/-- push_back_StrictArray from src/generic/StrictArray.h.  The source reads
arr->size and arr->type_size BEFORE its null check, so a NULL handle is a
fault (the `if (!arr) return SEGFAULT;` on the next line is dead for NULL).
On a valid handle: size == capacity is NO_SPACE with the array untouched;
otherwise type_size bytes of `value` are copied to offset
type_size * size, size is incremented and NO_ERROR returned. -/
def push_back_StrictArray (arr : Option StrictArray) (value : BBuf) :
    CRet (status_t × Option StrictArray) :=
  match arr with
  | none => CRet.fault
  | some a =>
    if a.size = a.capacity then CRet.ret (status_t.NO_SPACE, some a)
    else
      CRet.ret (status_t.NO_ERROR,
        some { a with data := memcpy a.data (a.type_size * a.size) value a.type_size,
                      size := a.size + 1 })

/-- pop_back_StrictArray from src/generic/StrictArray.h: no-op on a NULL
handle; decrements size when it is non-zero. -/
def pop_back_StrictArray (arr : Option StrictArray) : Option StrictArray :=
  match arr with
  | none => none
  | some a => if a.size ≠ 0 then some { a with size := a.size - 1 } else some a

/-- clear_StrictArray from src/generic/StrictArray.h: no-op on a NULL
handle; resets size to 0 without touching the payload. -/
def clear_StrictArray (arr : Option StrictArray) : Option StrictArray :=
  match arr with
  | none => none
  | some a => some { a with size := 0 }

/-- get_item from src/generic/StrictArray.h.  The source has NO null-handle
check (arr->size is read unconditionally), so a NULL handle is a fault.
Its bounds test is `index < 0 && index >= arr->size` — a conjunction that
is never true for an unsigned index — so on a valid handle it ALWAYS
returns arr->data + arr->type_size * index, modelled as `some` of that
byte offset, even when index >= size. -/
def get_item (arr : Option StrictArray) (index : Nat) : CRet (Option Nat) :=
  match arr with
  | none => CRet.fault
  | some a =>
    if index < 0 ∧ index ≥ a.size then CRet.ret none
    else CRet.ret (some (a.type_size * index))

/-- One mutating operation on an int strict array (the operations the spec
allows after construction: append, remove_last, clear). -/
inductive OpI where
  | push : Int → OpI
  | pop : OpI
  | clear : OpI

/-- The state a live (non-NULL) int strict array handle refers to after one
operation, read off from the embedded source functions. -/
def stepI (a : StrictArray_int) : OpI → StrictArray_int
  | OpI.push v => ((push_back_StrictArray_int (some a) v).2).getD a
  | OpI.pop => (pop_back_StrictArray_int (some a)).getD a
  | OpI.clear => (clear_StrictArray_int (some a)).getD a

/-- Running a sequence of int strict array operations left to right. -/
def runI (a : StrictArray_int) : List OpI → StrictArray_int
  | [] => a
  | op :: ops => runI (stepI a op) ops

/-- One mutating operation on a generic strict array. -/
inductive OpG where
  | push : BBuf → OpG
  | pop : OpG
  | clear : OpG

/-- The state a live (non-NULL) generic strict array handle refers to after
one operation. -/
def stepG (a : StrictArray) : OpG → StrictArray
  | OpG.push v =>
    match push_back_StrictArray (some a) v with
    | CRet.ret (_, some b) => b
    | _ => a
  | OpG.pop => (pop_back_StrictArray (some a)).getD a
  | OpG.clear => (clear_StrictArray (some a)).getD a

/-- Running a sequence of generic strict array operations left to right. -/
def runG (a : StrictArray) : List OpG → StrictArray
  | [] => a
  | op :: ops => runG (stepG a op) ops

theorem memcpy_fresh {α : Type} (m k : Nat) (src : List (Option α)) :
    memcpy (List.replicate m (none : Option α)) 0 src k
      = src.take k ++ List.replicate (m - k) none := by
  simp [memcpy, List.drop_replicate]

theorem memcpy_fresh_all {α : Type} (m : Nat) (src : List (Option α))
    (h : src.length = m) :
    memcpy (List.replicate m (none : Option α)) 0 src m = src := by
  rw [memcpy_fresh]
  subst h
  simp

theorem getD_take_of_lt {α : Type} (xs : List α) (d : α) (i n : Nat) (h : i < n) :
    (xs.take n).getD i d = xs.getD i d := by
  simp [List.getD, List.getElem?_take, h]

theorem stepI_capacity (a : StrictArray_int) (op : OpI) :
    (stepI a op).capacity = a.capacity := by
  cases op with
  | push v =>
    by_cases h : a.size = a.capacity <;>
      simp [stepI, push_back_StrictArray_int, h]
  | pop =>
    by_cases h : a.size ≠ 0 <;> simp [stepI, pop_back_StrictArray_int, h]
  | clear => simp [stepI, clear_StrictArray_int]

theorem stepI_size_le (a : StrictArray_int) (op : OpI) (h : a.size ≤ a.capacity) :
    (stepI a op).size ≤ a.capacity := by
  cases op with
  | push v =>
    by_cases hc : a.size = a.capacity
    · simp [stepI, push_back_StrictArray_int, hc, h]
    · simp [stepI, push_back_StrictArray_int, hc]
      omega
  | pop =>
    by_cases hc : a.size ≠ 0 <;> simp [stepI, pop_back_StrictArray_int, hc] <;> omega
  | clear => simp [stepI, clear_StrictArray_int]

theorem runI_capacity (ops : List OpI) :
    ∀ a : StrictArray_int, (runI a ops).capacity = a.capacity := by
  induction ops with
  | nil => intro a; rfl
  | cons op ops ih =>
    intro a
    show (runI (stepI a op) ops).capacity = a.capacity
    rw [ih, stepI_capacity]

theorem runI_size_le (ops : List OpI) :
    ∀ a : StrictArray_int, a.size ≤ a.capacity →
      (runI a ops).size ≤ (runI a ops).capacity := by
  induction ops with
  | nil => intro a h; exact h
  | cons op ops ih =>
    intro a h
    show (runI (stepI a op) ops).size ≤ (runI (stepI a op) ops).capacity
    exact ih (stepI a op) (by rw [stepI_capacity]; exact stepI_size_le a op h)

theorem stepG_capacity (a : StrictArray) (op : OpG) :
    (stepG a op).capacity = a.capacity := by
  cases op with
  | push v =>
    by_cases h : a.size = a.capacity <;>
      simp [stepG, push_back_StrictArray, h]
  | pop =>
    by_cases h : a.size ≠ 0 <;> simp [stepG, pop_back_StrictArray, h]
  | clear => simp [stepG, clear_StrictArray]

theorem stepG_size_le (a : StrictArray) (op : OpG) (h : a.size ≤ a.capacity) :
    (stepG a op).size ≤ a.capacity := by
  cases op with
  | push v =>
    by_cases hc : a.size = a.capacity
    · simp [stepG, push_back_StrictArray, hc, h]
    · simp [stepG, push_back_StrictArray, hc]
      omega
  | pop =>
    by_cases hc : a.size ≠ 0 <;> simp [stepG, pop_back_StrictArray, hc] <;> omega
  | clear => simp [stepG, clear_StrictArray]

theorem runG_capacity (ops : List OpG) :
    ∀ a : StrictArray, (runG a ops).capacity = a.capacity := by
  induction ops with
  | nil => intro a; rfl
  | cons op ops ih =>
    intro a
    show (runG (stepG a op) ops).capacity = a.capacity
    rw [ih, stepG_capacity]

theorem runG_size_le (ops : List OpG) :
    ∀ a : StrictArray, a.size ≤ a.capacity →
      (runG a ops).size ≤ (runG a ops).capacity := by
  induction ops with
  | nil => intro a h; exact h
  | cons op ops ih =>
    intro a h
    show (runG (stepG a op) ops).size ≤ (runG (stepG a op) ops).capacity
    exact ih (stepG a op) (by rw [stepG_capacity]; exact stepG_size_le a op h)

/-- Claim C1 (code defect): the generic strict array get is claimed to
return the absent indicator for index >= size, but its bounds test
`index < 0 && index >= arr->size` is never true for an unsigned index, so
it returns a non-null pointer (byte offset type_size * index) even out of
bounds; the int variant does return NULL there. -/
theorem C1_generic_get_bounds_defect :
    get_item (some ⟨0, 1, 1, [none]⟩) 0 = CRet.ret (some 0) ∧
    get_item (some ⟨0, 1, 1, [none]⟩) 0 ≠ CRet.ret none ∧
    get_item_StrictArray_int (some ⟨0, 1, [none]⟩) 0 = CRet.ret none := by
  decide

/-- Claim C2 (code defect): generic push_back reads arr->size and
arr->type_size before its null check, so an absent handle faults instead
of returning the SEGFAULT status; the int variant returns SEGFAULT as
claimed, and both the capacity-exhausted rejection and the successful
write-at-size behave as claimed on live handles. -/
theorem C2_generic_append_null_deref :
    push_back_StrictArray none [some 1] = CRet.fault ∧
    push_back_StrictArray_int none 1 = (status_t.SEGFAULT, none) ∧
    push_back_StrictArray_int (some ⟨1, 1, [some 3]⟩) 4
      = (status_t.NO_SPACE, some ⟨1, 1, [some 3]⟩) ∧
    push_back_StrictArray_int (some ⟨0, 1, [none]⟩) 4
      = (status_t.NO_ERROR, some ⟨1, 1, [some 4]⟩) ∧
    push_back_StrictArray (some ⟨1, 1, 1, [some 3]⟩) [some 4]
      = CRet.ret (status_t.NO_SPACE, some ⟨1, 1, 1, [some 3]⟩) ∧
    push_back_StrictArray (some ⟨0, 1, 1, [none]⟩) [some 4]
      = CRet.ret (status_t.NO_ERROR, some ⟨1, 1, 1, [some 4]⟩) := by
  decide

/-- Claim C3 (code defect): get with an absent handle returns NULL for the
plain arrays, but both strict array gets read arr->size without any null
check, so an absent handle is dereferenced (fault) instead of yielding the
absent indicator. -/
theorem C3_get_null_handle :
    get_item_Array_int none 0 = none ∧
    get_item_Array none 0 = none ∧
    get_item_StrictArray_int none 0 = CRet.fault ∧
    get_item none 0 = CRet.fault := by
  decide

/-- Claim C4 counterexample: the int strict clone does NOT copy only the
logical size worth of cells.  Cloning size = 1, capacity = 2,
data = [5, 7] yields a payload whose second cell holds the copied 7,
not the uninitialized cell a size-only copy would leave. -/
theorem C4_counterexample :
    (from_StrictArray_int (some ⟨1, 2, [some 5, some 7]⟩) true).pay
      = Payload.data ⟨1, 2, [some 5, some 7]⟩ ∧
    Payload.data (⟨1, 2, [some 5, some 7]⟩ : StrictArray_int)
      ≠ Payload.data (⟨1, 2, [some 5, none]⟩ : StrictArray_int) := by
  decide

/-- Claim C4 (amended): on a non-absent source and a successful allocation,
both strict clones succeed, preserve size and capacity and are
element-wise equal to the source on the live prefix; the generic clone
copies exactly size * type_size bytes (tail left uninitialized, and its
type_size field is left indeterminate), while the int clone copies the
full capacity worth of cells. -/
theorem C4_strict_clone (f : StrictArray_int) (g : StrictArray) (junk : Nat)
    (hfl : f.data.length = f.capacity) (hgs : g.size ≤ g.capacity)
    (hgl : g.data.length = g.capacity * g.type_size) :
    (∃ r : StrictArray_int,
      (from_StrictArray_int (some f) true).ok = status_t.NO_ERROR ∧
      (from_StrictArray_int (some f) true).pay = Payload.data r ∧
      r.size = f.size ∧ r.capacity = f.capacity ∧ r.data = f.data ∧
      ∀ i, i < f.size → r.data.getD i none = f.data.getD i none) ∧
    (∃ r : StrictArray,
      (from_StrictArray (some g) true junk).ok = status_t.NO_ERROR ∧
      (from_StrictArray (some g) true junk).pay = Payload.data r ∧
      r.size = g.size ∧ r.capacity = g.capacity ∧
      r.data = g.data.take (g.size * g.type_size)
        ++ List.replicate (g.capacity * g.type_size - g.size * g.type_size) none ∧
      ∀ i, i < g.size * g.type_size → r.data.getD i none = g.data.getD i none) := by
  constructor
  · refine ⟨⟨f.size, f.capacity,
      memcpy (List.replicate f.capacity none) 0 f.data f.capacity⟩,
      rfl, rfl, rfl, rfl, ?_, ?_⟩
    · exact memcpy_fresh_all f.capacity f.data hfl
    · intro i _
      rw [memcpy_fresh_all f.capacity f.data hfl]
  · have hmul : g.size * g.type_size ≤ g.capacity * g.type_size :=
      Nat.mul_le_mul_right g.type_size hgs
    refine ⟨⟨g.size, g.capacity, junk,
      memcpy (List.replicate (g.capacity * g.type_size) none) 0 g.data
        (g.size * g.type_size)⟩,
      rfl, rfl, rfl, rfl, ?_, ?_⟩
    · exact memcpy_fresh (g.capacity * g.type_size) (g.size * g.type_size) g.data
    · intro i hi
      rw [memcpy_fresh (g.capacity * g.type_size) (g.size * g.type_size) g.data]
      rw [List.getD_append]
      · exact getD_take_of_lt g.data none i (g.size * g.type_size) hi
      · rw [List.length_take, hgl]
        omega

/-- Claim C4 witness: the amended clone theorem applied to a concrete int
strict array (size 1, capacity 2) and a concrete generic strict array. -/
theorem C4_strict_clone_witness :
    ([some 5, some 7] : Buf).length = 2 ∧ (1 : Nat) ≤ 2 ∧
    ([some 9, some 8] : BBuf).length = 2 * 1 ∧
    ((∃ r : StrictArray_int,
      (from_StrictArray_int (some ⟨1, 2, [some 5, some 7]⟩) true).ok = status_t.NO_ERROR ∧
      (from_StrictArray_int (some ⟨1, 2, [some 5, some 7]⟩) true).pay = Payload.data r ∧
      r.size = 1 ∧ r.capacity = 2 ∧ r.data = [some 5, some 7] ∧
      ∀ i, i < 1 → r.data.getD i none = ([some 5, some 7] : Buf).getD i none) ∧
    (∃ r : StrictArray,
      (from_StrictArray (some ⟨1, 2, 1, [some 9, some 8]⟩) true 3).ok = status_t.NO_ERROR ∧
      (from_StrictArray (some ⟨1, 2, 1, [some 9, some 8]⟩) true 3).pay = Payload.data r ∧
      r.size = 1 ∧ r.capacity = 2 ∧
      r.data = ([some 9, some 8] : BBuf).take (1 * 1)
        ++ List.replicate (2 * 1 - 1 * 1) none ∧
      ∀ i, i < 1 * 1 → r.data.getD i none = ([some 9, some 8] : BBuf).getD i none)) :=
  ⟨by decide, by decide, by decide,
    C4_strict_clone ⟨1, 2, [some 5, some 7]⟩ ⟨1, 2, 1, [some 9, some 8]⟩ 3
      (by decide) (by decide) (by decide)⟩

/-- Claim C5 counterexample: a construction requested with capacity 3
strictly less than initial_count 5 but with an ABSENT data pointer
succeeds, because the count is forced to zero before the validation. -/
theorem C5_counterexample :
    (new_Array_int none 5 3 true).ok = status_t.NO_ERROR ∧
    status_t.NO_ERROR ≠ status_t.INVALID_SIZE := by
  decide

/-- Claim C5 (amended): for every construction whose initial_elements
pointer is PRESENT and whose capacity is strictly less than initial_count,
all four constructors return the INVALID_SIZE status carrying only a
diagnostic message (no container); with an absent pointer the count is
forced to zero, so the validation passes. -/
theorem C5_construct_invalid_size (d : Buf) (b : BBuf)
    (size cap type_size : Nat) (alloc : Bool) (h : cap < size) :
    ((new_Array_int (some d) size cap alloc).ok = status_t.INVALID_SIZE ∧
      (new_Array_int (some d) size cap alloc).pay
        = Payload.error_msg "SizeError: size is negative or capacity is less than size\n") ∧
    ((new_Array (some b) size cap type_size alloc).ok = status_t.INVALID_SIZE ∧
      (new_Array (some b) size cap type_size alloc).pay
        = Payload.error_msg "SizeError: size is negative or capacity is less than size\n") ∧
    ((new_StrictArray_int (some d) size cap alloc).ok = status_t.INVALID_SIZE ∧
      (new_StrictArray_int (some d) size cap alloc).pay
        = Payload.error_msg "SizeError: size is negative or capacity is less than size\n") ∧
    ((new_StrictArray (some b) type_size size cap alloc).ok = status_t.INVALID_SIZE ∧
      (new_StrictArray (some b) type_size size cap alloc).pay
        = Payload.error_msg "SizeError: Size is negative or capacity is less than size\n") := by
  refine ⟨⟨?_, ?_⟩, ⟨?_, ?_⟩, ⟨?_, ?_⟩, ⟨?_, ?_⟩⟩ <;>
    simp [new_Array_int, new_Array, new_StrictArray_int, new_StrictArray, h]

/-- Claim C5 witness: the amended theorem applied at initial_count 1,
capacity 0, with present (empty-buffer) data pointers. -/
theorem C5_construct_invalid_size_witness :
    (0 : Nat) < 1 ∧
    (((new_Array_int (some []) 1 0 true).ok = status_t.INVALID_SIZE ∧
      (new_Array_int (some []) 1 0 true).pay
        = Payload.error_msg "SizeError: size is negative or capacity is less than size\n") ∧
    ((new_Array (some []) 1 0 1 true).ok = status_t.INVALID_SIZE ∧
      (new_Array (some []) 1 0 1 true).pay
        = Payload.error_msg "SizeError: size is negative or capacity is less than size\n") ∧
    ((new_StrictArray_int (some []) 1 0 true).ok = status_t.INVALID_SIZE ∧
      (new_StrictArray_int (some []) 1 0 true).pay
        = Payload.error_msg "SizeError: size is negative or capacity is less than size\n") ∧
    ((new_StrictArray (some []) 1 1 0 true).ok = status_t.INVALID_SIZE ∧
      (new_StrictArray (some []) 1 1 0 true).pay
        = Payload.error_msg "SizeError: Size is negative or capacity is less than size\n")) :=
  ⟨by decide, C5_construct_invalid_size [] [] 1 0 1 true (by decide)⟩

/-- Claim C6 (code defect): the by-value unwrap get_data stores the payload
on success but falls off the end of the function without returning (its
value is indeterminate, not the absent indicator), and on failure it
returns the message WITHOUT setting the output slot to null; the
pointer-based unwrap get_data_p does behave exactly as claimed. -/
theorem C6_unwrap_divergence :
    get_data ({ ok := status_t.NO_ERROR, pay := Payload.data 42 } : Result Nat) true
      = (CVal.undef, some (some 42)) ∧
    get_data ({ ok := status_t.SEGFAULT, pay := Payload.error_msg "m" } : Result Nat) true
      = (CVal.val (some "m"), none) ∧
    get_data_p (some ({ ok := status_t.SEGFAULT, pay := Payload.error_msg "m" } : Result Nat)) true
      = (some "m", some none) ∧
    get_data_p (some ({ ok := status_t.NO_ERROR, pay := Payload.data 42 } : Result Nat)) true
      = (none, some (some 42)) := by
  decide

/-- Claim C7: for both strict array variants, a successful construction
establishes size <= capacity, and every sequence of append / remove_last /
clear operations keeps size <= capacity at every observable point while
never modifying the capacity field. -/
theorem C7_strict_invariant :
    (∀ (d : Option Buf) (s c : Nat) (al : Bool) (r : StrictArray_int),
        (new_StrictArray_int d s c al).pay = Payload.data r →
        r.size ≤ r.capacity) ∧
    (∀ (a : StrictArray_int) (ops : List OpI), a.size ≤ a.capacity →
        (runI a ops).size ≤ (runI a ops).capacity ∧
        (runI a ops).capacity = a.capacity) ∧
    (∀ (d : Option BBuf) (t s c : Nat) (al : Bool) (r : StrictArray),
        (new_StrictArray d t s c al).pay = Payload.data r →
        r.size ≤ r.capacity) ∧
    (∀ (a : StrictArray) (ops : List OpG), a.size ≤ a.capacity →
        (runG a ops).size ≤ (runG a ops).capacity ∧
        (runG a ops).capacity = a.capacity) := by
  refine ⟨?_, ?_, ?_, ?_⟩
  · intro d s c al r h
    simp only [new_StrictArray_int] at h
    split_ifs at h <;> simp at h <;> (subst h; simp; try omega)
  · intro a ops h
    exact ⟨runI_size_le ops a h, runI_capacity ops a⟩
  · intro d t s c al r h
    simp only [new_StrictArray] at h
    split_ifs at h <;> simp at h <;> (subst h; simp; try omega)
  · intro a ops h
    exact ⟨runG_size_le ops a h, runG_capacity ops a⟩

/-- Claim C7 witness: the invariant theorem applied to a concrete
construction and a concrete push on each variant. -/
theorem C7_strict_invariant_witness :
    ((new_StrictArray_int (some [some 1]) 1 2 true).pay
        = Payload.data ⟨1, 2, [some 1, none]⟩ ∧
      (⟨1, 2, [some 1, none]⟩ : StrictArray_int).size
        ≤ (⟨1, 2, [some 1, none]⟩ : StrictArray_int).capacity) ∧
    ((0 : Nat) ≤ 1 ∧
      (runI ⟨0, 1, [none]⟩ [OpI.push 5]).size
        ≤ (runI ⟨0, 1, [none]⟩ [OpI.push 5]).capacity ∧
      (runI ⟨0, 1, [none]⟩ [OpI.push 5]).capacity = 1) ∧
    ((new_StrictArray (some [some 7]) 1 1 2 true).pay
        = Payload.data ⟨1, 2, 1, [some 7, none]⟩ ∧
      (⟨1, 2, 1, [some 7, none]⟩ : StrictArray).size
        ≤ (⟨1, 2, 1, [some 7, none]⟩ : StrictArray).capacity) ∧
    ((0 : Nat) ≤ 1 ∧
      (runG ⟨0, 1, 1, [none]⟩ [OpG.push [some 7]]).size
        ≤ (runG ⟨0, 1, 1, [none]⟩ [OpG.push [some 7]]).capacity ∧
      (runG ⟨0, 1, 1, [none]⟩ [OpG.push [some 7]]).capacity = 1) :=
  ⟨⟨by decide,
      C7_strict_invariant.1 (some [some 1]) 1 2 true ⟨1, 2, [some 1, none]⟩ (by decide)⟩,
    ⟨by decide, C7_strict_invariant.2.1 ⟨0, 1, [none]⟩ [OpI.push 5] (by decide)⟩,
    ⟨by decide,
      C7_strict_invariant.2.2.1 (some [some 7]) 1 1 2 true ⟨1, 2, 1, [some 7, none]⟩ (by decide)⟩,
    ⟨by decide, C7_strict_invariant.2.2.2 ⟨0, 1, 1, [none]⟩ [OpG.push [some 7]] (by decide)⟩⟩

/-- Claim C8: plain array clone of a non-absent source succeeds, keeps the
capacity (and, for the generic variant, the type_size) and copies the
entire backing buffer, so the payload is element-wise equal to the source
across the full [0, capacity) range. -/
theorem C8_plain_clone (f : Array_int) (g : generic.Array)
    (hfl : f.data.length = f.capacity) (hgt : 1 ≤ g.type_size)
    (hgl : g.data.length = g.capacity * g.type_size) :
    (from_Array_int (some f) true).ok = status_t.NO_ERROR ∧
    (from_Array_int (some f) true).pay
      = Payload.data { capacity := f.capacity, data := f.data } ∧
    (from_Array (some g) true).ok = status_t.NO_ERROR ∧
    (from_Array (some g) true).pay
      = Payload.data { capacity := g.capacity, type_size := g.type_size,
                       data := g.data } := by
  have ht : ¬ g.type_size ≤ 0 := by omega
  refine ⟨?_, ?_, ?_, ?_⟩
  · simp [from_Array_int, new_Array_int]
  · simp [from_Array_int, new_Array_int, memcpy_fresh_all f.capacity f.data hfl]
  · simp [from_Array, new_Array, ht]
  · simp [from_Array, new_Array, ht,
      memcpy_fresh_all (g.capacity * g.type_size) g.data hgl]

/-- Claim C8 witness: the plain clone theorem applied to concrete arrays
whose buffers include an uninitialized tail cell (which is copied too). -/
theorem C8_plain_clone_witness :
    ([some 1, none] : Buf).length = 2 ∧ (1 : Nat) ≤ 1 ∧
    ([some 9, none] : BBuf).length = 2 * 1 ∧
    ((from_Array_int (some ⟨2, [some 1, none]⟩) true).ok = status_t.NO_ERROR ∧
    (from_Array_int (some ⟨2, [some 1, none]⟩) true).pay
      = Payload.data { capacity := 2, data := ([some 1, none] : Buf) } ∧
    (from_Array (some ⟨2, 1, [some 9, none]⟩) true).ok = status_t.NO_ERROR ∧
    (from_Array (some ⟨2, 1, [some 9, none]⟩) true).pay
      = Payload.data { capacity := 2, type_size := 1,
                       data := ([some 9, none] : BBuf) }) :=
  ⟨by decide, by decide, by decide,
    C8_plain_clone ⟨2, [some 1, none]⟩ ⟨2, 1, [some 9, none]⟩
      (by decide) (by decide) (by decide)⟩

/-- Claim C9: constructing an int plain array from an absent pointer with
initial_count 5 and capacity 10 succeeds (the count is forced to zero)
with capacity 10 and a fully uninitialized payload; get at index 9 returns
a non-absent reference and get at index 10 returns the absent indicator. -/
theorem C9_plain_scenario :
    (new_Array_int none 5 10 true).ok = status_t.NO_ERROR ∧
    (new_Array_int none 5 10 true).pay
      = Payload.data ⟨10, List.replicate 10 none⟩ ∧
    get_item_Array_int (some ⟨10, List.replicate 10 none⟩) 9 ≠ none ∧
    get_item_Array_int (some ⟨10, List.replicate 10 none⟩) 10 = none := by
  decide

/-- Claim C10: with an absent output slot neither unwrap dereferences the
slot: get_data_p returns the null-access diagnostic leaving the slot
untouched, and get_data returns NULL — even when the Result carries a
failure status — silently discarding the error. -/
theorem C10_unwrap_null_slot (α : Type) (r : Result α) :
    get_data_p (some r) false
      = (some "ValueError: cannot access a null pointer.\n", none) ∧
    get_data r false = (CVal.val none, none) :=
  ⟨rfl, rfl⟩

/-- Claim C10 witness: the null-slot unwrap theorem applied at a concrete
failure Result over Nat payloads. -/
theorem C10_unwrap_null_slot_witness :
    get_data_p (some ({ ok := status_t.SEGFAULT, pay := Payload.error_msg "m" } : Result Nat)) false
      = (some "ValueError: cannot access a null pointer.\n", none) ∧
    get_data ({ ok := status_t.SEGFAULT, pay := Payload.error_msg "m" } : Result Nat) false
      = (CVal.val none, none) :=
  C10_unwrap_null_slot Nat { ok := status_t.SEGFAULT, pay := Payload.error_msg "m" }
